import Mathlib

/-!
Formal model of the reSID waveform generator (src/resid/wave.h) and of the
per-sample cycle of the SIDOsc plugin (src/plugins/SIDOsc/SIDOsc.cpp).
Register fields are embedded as Nat (C unsigned int) or Int (C int,
cycle_count), with bit masking written out explicitly. Parts of the
repository that live in wave.cc (the static wave tables, writeCONTROL_REG,
set_sync_source) are not under src; where a claim depends on them they are
modelled from the spec and marked as such.
-/

namespace SIDOsc

/-- Chip model selector MOS6581 from the enum chip_model in siddefs.h. -/
def MOS6581 : Nat := 0

/-- Chip model selector MOS8580 from the enum chip_model in siddefs.h. -/
def MOS8580 : Nat := 1

/-- Bitwise complement of a C unsigned int (32 bits). -/
def compl32 (x : Nat) : Nat := 0xffffffff ^^^ x

/-- Unary minus on a C unsigned int (32 bits). -/
def negWrap32 (x : Nat) : Nat := (0x100000000 - x % 0x100000000) % 0x100000000

/-- Wrapping subtraction on a C unsigned int (32 bits). -/
def subWrap32 (a b : Nat) : Nat :=
  (a % 0x100000000 + (0x100000000 - b % 0x100000000)) % 0x100000000

/-- State of one WaveformGenerator (wave.h lines 37-130). The wave field is the
currently selected waveform table: the pointer into model_wave, whose data lives
in wave.cc and is therefore kept as a function parameter of the state. -/
structure WaveformGenerator where
  accumulator : Nat
  msb_rising : Bool
  freq : Nat
  pw : Nat
  shift_register : Nat
  shift_register_reset : Int
  shift_pipeline : Int
  ring_msb_mask : Nat
  no_noise : Nat
  noise_output : Nat
  no_noise_or_noise_output : Nat
  no_pulse : Nat
  pulse_output : Nat
  waveform : Nat
  tri_saw_pipeline : Nat
  osc3 : Nat
  test : Nat
  ring_mod : Nat
  sync : Nat
  waveform_output : Nat
  floating_output_ttl : Int
  sid_model : Nat
  wave : Nat → Nat

/-- Recompute the noise waveform bits from the shift register
(wave.h lines 362-375). -/
def set_noise_output (st : WaveformGenerator) : WaveformGenerator :=
  let no :=
    ((st.shift_register &&& 0x100000) >>> 9) |||
    ((st.shift_register &&& 0x040000) >>> 8) |||
    ((st.shift_register &&& 0x004000) >>> 5) |||
    ((st.shift_register &&& 0x000800) >>> 3) |||
    ((st.shift_register &&& 0x000200) >>> 2) |||
    ((st.shift_register &&& 0x000020) <<< 1) |||
    ((st.shift_register &&& 0x000004) <<< 3) |||
    ((st.shift_register &&& 0x000001) <<< 4)
  { st with noise_output := no, no_noise_or_noise_output := st.no_noise ||| no }

/-- One LFSR shift step (wave.h lines 320-328). -/
def clock_shift_register (st : WaveformGenerator) : WaveformGenerator :=
  let bit0 := ((st.shift_register >>> 22) ^^^ (st.shift_register >>> 17)) &&& 0x1
  set_noise_output
    { st with shift_register := ((st.shift_register <<< 1) ||| bit0) &&& 0x7fffff }

/-- Full reset of the shift register (wave.h lines 353-360). -/
def reset_shift_register (st : WaveformGenerator) : WaveformGenerator :=
  set_noise_output { st with shift_register := 0x7fffff, shift_register_reset := 0 }

/-- Write back combined-waveform output bits into the shift register
(wave.h lines 330-351). -/
def write_shift_register (st : WaveformGenerator) : WaveformGenerator :=
  let mask :=
    compl32 ((1 <<< 20) ||| (1 <<< 18) ||| (1 <<< 14) ||| (1 <<< 11) |||
             (1 <<< 9) ||| (1 <<< 5) ||| (1 <<< 2) ||| (1 <<< 0)) |||
    ((st.waveform_output &&& 0x800) <<< 9) |||
    ((st.waveform_output &&& 0x400) <<< 8) |||
    ((st.waveform_output &&& 0x200) <<< 5) |||
    ((st.waveform_output &&& 0x100) <<< 3) |||
    ((st.waveform_output &&& 0x080) <<< 2) |||
    ((st.waveform_output &&& 0x040) >>> 1) |||
    ((st.waveform_output &&& 0x020) >>> 3) |||
    ((st.waveform_output &&& 0x010) >>> 4)
  let no := st.noise_output &&& st.waveform_output
  { st with shift_register := st.shift_register &&& mask,
            noise_output := no,
            no_noise_or_noise_output := st.no_noise ||| no }

/-- Single cycle clocking (wave.h lines 144-175). -/
def clock (st : WaveformGenerator) : WaveformGenerator :=
  if st.test ≠ 0 then
    let st1 :=
      if st.shift_register_reset ≠ 0 then
        let std := { st with shift_register_reset := st.shift_register_reset - 1 }
        if std.shift_register_reset = 0 then reset_shift_register std else std
      else st
    { st1 with pulse_output := 0xfff }
  else
    let accumulator_next := (st.accumulator + st.freq) &&& 0xffffff
    let accumulator_bits_set := compl32 st.accumulator &&& accumulator_next
    let st1 := { st with
      accumulator := accumulator_next,
      msb_rising := decide (accumulator_bits_set &&& 0x800000 ≠ 0) }
    if accumulator_bits_set &&& 0x080000 ≠ 0 then
      { st1 with shift_pipeline := 2 }
    else if st1.shift_pipeline ≠ 0 then
      let st2 := { st1 with shift_pipeline := st1.shift_pipeline - 1 }
      if st2.shift_pipeline = 0 then clock_shift_register st2 else st2
    else st1

/-- The shift register catch-up loop of the delta clocking path (wave.h lines
210-238). The local shift_period starts at 0x100000; when the remaining delta
is smaller, shift_period is set to that remainder, the flip tests may break out,
and an executed shift drains the whole remainder, ending the loop; so the loop
is phrased by cases on the remainder. -/
def shift_loop (st : WaveformGenerator) (delta_accumulator : Nat) : WaveformGenerator :=
  if delta_accumulator = 0 then st
  else if h : delta_accumulator < 0x100000 then
    if delta_accumulator ≤ 0x080000 then
      if subWrap32 st.accumulator delta_accumulator &&& 0x080000 ≠ 0 ∨
         st.accumulator &&& 0x080000 = 0 then st
      else clock_shift_register st
    else
      if subWrap32 st.accumulator delta_accumulator &&& 0x080000 ≠ 0 ∧
         st.accumulator &&& 0x080000 = 0 then st
      else clock_shift_register st
  else
    shift_loop (clock_shift_register st) (delta_accumulator - 0x100000)
termination_by delta_accumulator
decreasing_by omega

/-- Delta cycle clocking (wave.h lines 180-244). -/
def clock_delta (delta_t : Nat) (st : WaveformGenerator) : WaveformGenerator :=
  if st.test ≠ 0 then
    let st1 :=
      if st.shift_register_reset ≠ 0 then
        let std := { st with
          shift_register_reset := st.shift_register_reset - (delta_t : Int) }
        if std.shift_register_reset ≤ 0 then reset_shift_register std else std
      else st
    { st1 with pulse_output := 0xfff }
  else
    let delta_accumulator := delta_t * st.freq % 0x100000000
    let accumulator_next := (st.accumulator + delta_accumulator) &&& 0xffffff
    let accumulator_bits_set := compl32 st.accumulator &&& accumulator_next
    let st1 := { st with
      accumulator := accumulator_next,
      msb_rising := decide (accumulator_bits_set &&& 0x800000 ≠ 0) }
    let st2 := shift_loop st1 delta_accumulator
    { st2 with
      pulse_output := if st2.accumulator >>> 12 ≥ st2.pw then 0xfff else 0x000 }

/-- Combined noise and pulse correction for the 6581 (wave.h lines 491-494). -/
def noise_pulse6581 (noise : Nat) : Nat :=
  if noise < 0xf00 then 0x000 else noise &&& (noise <<< 1) &&& (noise <<< 2)

/-- Combined noise and pulse correction for the 8580 (wave.h lines 496-499). -/
def noise_pulse8580 (noise : Nat) : Nat :=
  if noise < 0xfc0 then noise &&& (noise <<< 1) else 0xfc0

/-- Branch stage of the single cycle waveform output calculation (wave.h lines
574-621). The argument src_acc is the accumulator of the sync source
generator. -/
def swo_body (src_acc : Nat) (st : WaveformGenerator) : WaveformGenerator :=
  let st1 :=
    if st.waveform ≠ 0 then
      let ix := (st.accumulator ^^^ (compl32 src_acc &&& st.ring_msb_mask)) >>> 12
      let wo0 := st.wave ix &&& (st.no_pulse ||| st.pulse_output) &&&
                 st.no_noise_or_noise_output
      let wo :=
        if st.waveform &&& 0xc = 0xc then
          if st.sid_model = MOS6581 then noise_pulse6581 wo0 else noise_pulse8580 wo0
        else wo0
      let stA := { st with waveform_output := wo }
      let stB :=
        if st.waveform &&& 3 ≠ 0 ∧ st.sid_model = MOS8580 then
          { stA with
            osc3 := stA.tri_saw_pipeline &&& (st.no_pulse ||| st.pulse_output) &&&
                    st.no_noise_or_noise_output,
            tri_saw_pipeline := st.wave ix }
        else { stA with osc3 := wo }
      let stC :=
        if st.waveform &&& 0x2 ≠ 0 ∧ st.waveform &&& 0xd ≠ 0 ∧
           st.sid_model = MOS6581 then
          { stB with accumulator := stB.accumulator &&& ((wo <<< 12) ||| 0x7fffff) }
        else stB
      if st.waveform > 0x8 ∧ st.test = 0 ∧ st.shift_pipeline ≠ 1 then
        write_shift_register stC
      else stC
    else
      if st.floating_output_ttl ≠ 0 then
        let ttl := st.floating_output_ttl - 1
        if ttl = 0 then
          { st with floating_output_ttl := 0, osc3 := 0, waveform_output := 0 }
        else { st with floating_output_ttl := ttl }
      else st
  st1

/-- Single cycle waveform output calculation (wave.h lines 571-636): the branch
stage swo_body followed by the push of the next pulse level into the pulse
level pipeline (wave.h line 635), which runs on every call regardless of the
selected waveform. -/
def set_waveform_output (src_acc : Nat) (st : WaveformGenerator) : WaveformGenerator :=
  { swo_body src_acc st with
    pulse_output :=
      negWrap32 (if (swo_body src_acc st).accumulator >>> 12 ≥
        (swo_body src_acc st).pw then 1 else 0) &&& 0xfff }

/-- Delta cycle waveform output calculation (wave.h lines 638-672). -/
def set_waveform_output_delta (delta_t : Nat) (src_acc : Nat)
    (st : WaveformGenerator) : WaveformGenerator :=
  if st.waveform ≠ 0 then
    let ix := (st.accumulator ^^^ (compl32 src_acc &&& st.ring_msb_mask)) >>> 12
    let wo := st.wave ix &&& (st.no_pulse ||| st.pulse_output) &&&
              st.no_noise_or_noise_output
    let stA := { st with waveform_output := wo, osc3 := wo }
    let stB :=
      if st.waveform &&& 0x2 ≠ 0 ∧ st.waveform &&& 0xd ≠ 0 ∧
         st.sid_model = MOS6581 then
        { stA with accumulator := stA.accumulator &&& ((wo <<< 12) ||| 0x7fffff) }
      else stA
    if st.waveform > 0x8 ∧ st.test = 0 then write_shift_register stB else stB
  else
    if st.floating_output_ttl ≠ 0 then
      let ttl := st.floating_output_ttl - (delta_t : Int)
      if ttl ≤ 0 then
        { st with floating_output_ttl := 0, osc3 := 0, waveform_output := 0 }
      else { st with floating_output_ttl := ttl }
    else st

/-- Modelled from the spec: set_sync_source is declared in wave.h line 42 but
its body lives in wave.cc, which is not under src. Per spec sections 3 and 6
each generator is handed a reference to its sync source and the references form
a cycle of length 3. SIDOsc.cpp lines 51-53 wire voice 0 from source voice 2,
voice 1 from source voice 0 and voice 2 from source voice 1; hence the sync
destinations are 0 to 1, 1 to 2 and 2 to 0. -/
def sync_dest_idx : Fin 3 → Fin 3
  | 0 => 1
  | 1 => 2
  | 2 => 0

/-- Modelled from the spec: the sync source indices wired by SIDOsc.cpp lines
51-53, inverse of sync_dest_idx. -/
def sync_source_idx : Fin 3 → Fin 3
  | 0 => 2
  | 1 => 0
  | 2 => 1

/-- Hard sync step of one generator in the 3-voice ring (wave.h lines 254-263):
when the MSB of generator a rose and the sync bit of its destination is on, the
destination accumulator is zeroed, unless generator a is itself being synced on
the same cycle. -/
def synchronize_at (sys : Fin 3 → WaveformGenerator) (a : Fin 3) :
    Fin 3 → WaveformGenerator :=
  if (sys a).msb_rising ∧ (sys (sync_dest_idx a)).sync ≠ 0 ∧
     ¬((sys a).sync ≠ 0 ∧ (sys (sync_source_idx a)).msb_rising) then
    Function.update sys (sync_dest_idx a)
      { sys (sync_dest_idx a) with accumulator := 0 }
  else sys

/-- Clock all three voices (SIDOsc.cpp lines 122-124). -/
def system_clock (sys : Fin 3 → WaveformGenerator) : Fin 3 → WaveformGenerator :=
  fun i => clock (sys i)

/-- Synchronize all three voices in order (SIDOsc.cpp lines 125-127). -/
def system_synchronize (sys : Fin 3 → WaveformGenerator) :
    Fin 3 → WaveformGenerator :=
  synchronize_at (synchronize_at (synchronize_at sys 0) 1) 2

/-- Run set_waveform_output for voice i, reading the live accumulator of its
sync source. -/
def set_output_at (sys : Fin 3 → WaveformGenerator) (i : Fin 3) :
    Fin 3 → WaveformGenerator :=
  Function.update sys i
    (set_waveform_output ((sys (sync_source_idx i)).accumulator) (sys i))

/-- Compute waveform output for all three voices in order
(SIDOsc.cpp lines 128-130). -/
def system_set_output (sys : Fin 3 → WaveformGenerator) :
    Fin 3 → WaveformGenerator :=
  set_output_at (set_output_at (set_output_at sys 0) 1) 2

/-- One per-sample cycle of the plugin inner loop (SIDOsc.cpp lines 121-130):
clock all voices, synchronize all voices, then compute all outputs. -/
def sample_cycle (sys : Fin 3 → WaveformGenerator) : Fin 3 → WaveformGenerator :=
  system_set_output (system_synchronize (system_clock sys))

/-- Modelled from the spec: the static table model_wave lives in wave.cc, which
is not under src. For the pure sawtooth selector the table is the identity on
the 12-bit index: wave.h lines 284-286 state that the sawtooth output is
identical to the upper 12 bits of the accumulator, and the FPGA variant at
wave.h lines 514-515 returns accumulator shifted right by 12 directly. -/
def saw_wave : Nat → Nat := fun ix => ix

/-- Modelled from the spec: writeCONTROL_REG lives in wave.cc, not under src.
With only the sawtooth selector bit set (value 2) it selects the sawtooth table
and derives the helper masks: the no-pulse and no-noise masks are all ones over
12 bits (neither pulse nor noise is selected) and the ring mask is cleared. -/
def sawtooth_only_control (st : WaveformGenerator) : Prop :=
  st.waveform = 2 ∧ st.wave = saw_wave ∧ st.no_pulse = 0xfff ∧
  st.no_noise_or_noise_output = 0xfff ∧ st.ring_msb_mask = 0

/-- Width invariant of the two phase registers (spec section 3). -/
def reg_inv (st : WaveformGenerator) : Prop :=
  st.accumulator < 0x1000000 ∧ st.shift_register < 0x800000

/-- A concrete generator state used to instantiate theorems on explicit inputs. -/
def baseGen : WaveformGenerator where
  accumulator := 5
  msb_rising := false
  freq := 3
  pw := 1
  shift_register := 0x7fffff
  shift_register_reset := 0
  shift_pipeline := 0
  ring_msb_mask := 0
  no_noise := 0xfff
  noise_output := 0
  no_noise_or_noise_output := 0xfff
  no_pulse := 0xfff
  pulse_output := 0xfff
  waveform := 0
  tri_saw_pipeline := 0
  osc3 := 0
  test := 0
  ring_mod := 0
  sync := 0
  waveform_output := 0
  floating_output_ttl := 0
  sid_model := MOS6581
  wave := saw_wave

/-- A concrete generator frozen by the test bit, with the accumulator at the
value 0 that setting TEST forces (wave.h lines 32-33) and a nonzero pulse
width. -/
def frozenGen : WaveformGenerator :=
  { baseGen with test := 1, accumulator := 0 }

/-- A concrete sawtooth-only generator state. -/
def sawGen : WaveformGenerator :=
  { baseGen with waveform := 2, accumulator := 0xabc123 }

/-- A concrete floating-output generator state with a small decay countdown. -/
def floatGen : WaveformGenerator :=
  { baseGen with floating_output_ttl := 3, waveform_output := 7, osc3 := 7 }

/-- A concrete 3-voice system whose voice 0 is frozen by the test bit. -/
def frozenSys : Fin 3 → WaveformGenerator :=
  ![frozenGen, baseGen, baseGen]

/-- A concrete 3-voice system where the MSB of voice 0 rose and its sync
destination (voice 1) has the sync bit on. -/
def syncSys : Fin 3 → WaveformGenerator :=
  ![{ baseGen with msb_rising := true },
    { baseGen with sync := 1, accumulator := 77 },
    baseGen]

/-- A concrete 3-voice system exhibiting the simultaneous self-sync
suppression: voice 0 rose, its destination has sync on, but voice 0 also has
sync on and its own source (voice 2) rose on the same cycle. -/
def syncSupSys : Fin 3 → WaveformGenerator :=
  ![{ baseGen with msb_rising := true, sync := 1 },
    { baseGen with sync := 1, accumulator := 77 },
    { baseGen with msb_rising := true }]

/-- A concrete 3-voice system whose frozen voice 0 carries a stale msb_rising
flag from its last unfrozen cycle, with the sync bit on at its destination. -/
def staleSys : Fin 3 → WaveformGenerator :=
  ![{ frozenGen with msb_rising := true },
    { baseGen with sync := 1, accumulator := 42 },
    baseGen]

end SIDOsc

namespace SIDOsc

@[simp] theorem sno_accumulator (st : WaveformGenerator) : (set_noise_output st).accumulator = st.accumulator := rfl

@[simp] theorem sno_msb (st : WaveformGenerator) : (set_noise_output st).msb_rising = st.msb_rising := rfl

@[simp] theorem sno_freq (st : WaveformGenerator) : (set_noise_output st).freq = st.freq := rfl

@[simp] theorem sno_pw (st : WaveformGenerator) : (set_noise_output st).pw = st.pw := rfl

@[simp] theorem sno_test (st : WaveformGenerator) : (set_noise_output st).test = st.test := rfl

@[simp] theorem sno_sync (st : WaveformGenerator) : (set_noise_output st).sync = st.sync := rfl

@[simp] theorem sno_waveform (st : WaveformGenerator) : (set_noise_output st).waveform = st.waveform := rfl

@[simp] theorem sno_wo (st : WaveformGenerator) : (set_noise_output st).waveform_output = st.waveform_output := rfl

@[simp] theorem sno_pulse (st : WaveformGenerator) : (set_noise_output st).pulse_output = st.pulse_output := rfl

@[simp] theorem sno_sr (st : WaveformGenerator) : (set_noise_output st).shift_register = st.shift_register := rfl

@[simp] theorem sno_sp (st : WaveformGenerator) : (set_noise_output st).shift_pipeline = st.shift_pipeline := rfl

@[simp] theorem sno_srr (st : WaveformGenerator) : (set_noise_output st).shift_register_reset = st.shift_register_reset := rfl

@[simp] theorem sno_osc3 (st : WaveformGenerator) : (set_noise_output st).osc3 = st.osc3 := rfl

@[simp] theorem sno_ttl (st : WaveformGenerator) : (set_noise_output st).floating_output_ttl = st.floating_output_ttl := rfl

@[simp] theorem csr_accumulator (st : WaveformGenerator) : (clock_shift_register st).accumulator = st.accumulator := rfl

@[simp] theorem csr_msb (st : WaveformGenerator) : (clock_shift_register st).msb_rising = st.msb_rising := rfl

@[simp] theorem csr_freq (st : WaveformGenerator) : (clock_shift_register st).freq = st.freq := rfl

@[simp] theorem csr_pw (st : WaveformGenerator) : (clock_shift_register st).pw = st.pw := rfl

@[simp] theorem csr_test (st : WaveformGenerator) : (clock_shift_register st).test = st.test := rfl

@[simp] theorem csr_sync (st : WaveformGenerator) : (clock_shift_register st).sync = st.sync := rfl

@[simp] theorem csr_waveform (st : WaveformGenerator) : (clock_shift_register st).waveform = st.waveform := rfl

@[simp] theorem csr_wo (st : WaveformGenerator) : (clock_shift_register st).waveform_output = st.waveform_output := rfl

@[simp] theorem csr_pulse (st : WaveformGenerator) : (clock_shift_register st).pulse_output = st.pulse_output := rfl

@[simp] theorem csr_sp (st : WaveformGenerator) : (clock_shift_register st).shift_pipeline = st.shift_pipeline := rfl

@[simp] theorem csr_srr (st : WaveformGenerator) : (clock_shift_register st).shift_register_reset = st.shift_register_reset := rfl

@[simp] theorem csr_osc3 (st : WaveformGenerator) : (clock_shift_register st).osc3 = st.osc3 := rfl

@[simp] theorem csr_ttl (st : WaveformGenerator) : (clock_shift_register st).floating_output_ttl = st.floating_output_ttl := rfl

theorem csr_sr (st : WaveformGenerator) : (clock_shift_register st).shift_register = ((st.shift_register <<< 1) ||| (((st.shift_register >>> 22) ^^^ (st.shift_register >>> 17)) &&& 0x1)) &&& 0x7fffff := rfl

@[simp] theorem rsr_accumulator (st : WaveformGenerator) : (reset_shift_register st).accumulator = st.accumulator := rfl

@[simp] theorem rsr_msb (st : WaveformGenerator) : (reset_shift_register st).msb_rising = st.msb_rising := rfl

@[simp] theorem rsr_freq (st : WaveformGenerator) : (reset_shift_register st).freq = st.freq := rfl

@[simp] theorem rsr_pw (st : WaveformGenerator) : (reset_shift_register st).pw = st.pw := rfl

@[simp] theorem rsr_test (st : WaveformGenerator) : (reset_shift_register st).test = st.test := rfl

@[simp] theorem rsr_sync (st : WaveformGenerator) : (reset_shift_register st).sync = st.sync := rfl

@[simp] theorem rsr_waveform (st : WaveformGenerator) : (reset_shift_register st).waveform = st.waveform := rfl

@[simp] theorem rsr_wo (st : WaveformGenerator) : (reset_shift_register st).waveform_output = st.waveform_output := rfl

@[simp] theorem rsr_pulse (st : WaveformGenerator) : (reset_shift_register st).pulse_output = st.pulse_output := rfl

@[simp] theorem rsr_sp (st : WaveformGenerator) : (reset_shift_register st).shift_pipeline = st.shift_pipeline := rfl

@[simp] theorem rsr_sr (st : WaveformGenerator) : (reset_shift_register st).shift_register = 0x7fffff := rfl

@[simp] theorem rsr_osc3 (st : WaveformGenerator) : (reset_shift_register st).osc3 = st.osc3 := rfl

@[simp] theorem rsr_ttl (st : WaveformGenerator) : (reset_shift_register st).floating_output_ttl = st.floating_output_ttl := rfl

@[simp] theorem wsr_accumulator (st : WaveformGenerator) : (write_shift_register st).accumulator = st.accumulator := rfl

@[simp] theorem wsr_msb (st : WaveformGenerator) : (write_shift_register st).msb_rising = st.msb_rising := rfl

@[simp] theorem wsr_freq (st : WaveformGenerator) : (write_shift_register st).freq = st.freq := rfl

@[simp] theorem wsr_pw (st : WaveformGenerator) : (write_shift_register st).pw = st.pw := rfl

@[simp] theorem wsr_test (st : WaveformGenerator) : (write_shift_register st).test = st.test := rfl

@[simp] theorem wsr_sync (st : WaveformGenerator) : (write_shift_register st).sync = st.sync := rfl

@[simp] theorem wsr_waveform (st : WaveformGenerator) : (write_shift_register st).waveform = st.waveform := rfl

@[simp] theorem wsr_wo (st : WaveformGenerator) : (write_shift_register st).waveform_output = st.waveform_output := rfl

@[simp] theorem wsr_pulse (st : WaveformGenerator) : (write_shift_register st).pulse_output = st.pulse_output := rfl

@[simp] theorem wsr_osc3 (st : WaveformGenerator) : (write_shift_register st).osc3 = st.osc3 := rfl

@[simp] theorem wsr_ttl (st : WaveformGenerator) : (write_shift_register st).floating_output_ttl = st.floating_output_ttl := rfl

theorem wsr_sr_eq_and (st : WaveformGenerator) : ∃ m, (write_shift_register st).shift_register = st.shift_register &&& m := ⟨_, rfl⟩

theorem and_mask24 (x : Nat) : x &&& 0xffffff = x % 0x1000000 := by
  have h : (0xffffff : Nat) = 2 ^ 24 - 1 := by norm_num
  rw [h, Nat.and_pow_two_sub_one_eq_mod]

theorem negWrap_mask (c : Prop) [Decidable c] :
    negWrap32 (if c then 1 else 0) &&& 0xfff = if c then 0xfff else 0 := by
  by_cases h : c
  · simp only [if_pos h]
    decide
  · simp only [if_neg h]
    decide

end SIDOsc

namespace SIDOsc

theorem clock_frozen_fields (st : WaveformGenerator) (h : st.test ≠ 0) :
    (clock st).accumulator = st.accumulator ∧
    (clock st).msb_rising = st.msb_rising ∧
    (clock st).shift_pipeline = st.shift_pipeline ∧
    (clock st).freq = st.freq ∧
    (clock st).pw = st.pw ∧
    (clock st).waveform_output = st.waveform_output ∧
    (clock st).test = st.test ∧
    (clock st).sync = st.sync ∧
    (clock st).waveform = st.waveform ∧
    (clock st).osc3 = st.osc3 ∧
    (clock st).floating_output_ttl = st.floating_output_ttl ∧
    (clock st).pulse_output = 0xfff := by
  have h' : (st.test ≠ 0) = True := eq_true h
  simp only [clock, h', if_true]
  by_cases h1 : st.shift_register_reset ≠ 0
  · simp only [eq_true h1, if_true]
    by_cases h2 : st.shift_register_reset - 1 = 0
    · simp [h2]
    · simp [h2]
  · simp only [eq_false h1, if_false]
    simp

theorem clock_run_fields (st : WaveformGenerator) (h : st.test = 0) :
    (clock st).accumulator = (st.accumulator + st.freq) &&& 0xffffff ∧
    (clock st).test = st.test ∧
    (clock st).freq = st.freq ∧
    (clock st).pw = st.pw ∧
    (clock st).waveform = st.waveform ∧
    (clock st).waveform_output = st.waveform_output ∧
    (clock st).pulse_output = st.pulse_output ∧
    (clock st).sync = st.sync ∧
    (clock st).osc3 = st.osc3 ∧
    (clock st).floating_output_ttl = st.floating_output_ttl := by
  have h' : (st.test ≠ 0) = False := by simp [h]
  simp only [clock, h', if_false]
  by_cases h1 : compl32 st.accumulator &&& ((st.accumulator + st.freq) &&& 0xffffff) &&& 0x080000 ≠ 0
  · simp only [eq_true h1, if_true]
    simp
  · simp only [eq_false h1, if_false]
    by_cases h2 : st.shift_pipeline ≠ 0
    · simp only [eq_true h2, if_true]
      by_cases h3 : st.shift_pipeline - 1 = 0
      · simp [h3]
      · simp [h3]
    · simp only [eq_false h2, if_false]
      simp

end SIDOsc

namespace SIDOsc

/-- C5: write_shift_register only ever clears bits of the shift register: for
every state (hence every shift register value and every waveform output value)
the written register is a bitwise submask of the register before the write, so
a bit cleared by the combined-waveform write-back can only be brought back by
an explicit reset. -/
theorem write_shift_register_bit_clearing (st : WaveformGenerator) :
    (write_shift_register st).shift_register &&& st.shift_register =
      (write_shift_register st).shift_register := by
  obtain ⟨m, hm⟩ := wsr_sr_eq_and st
  rw [hm]
  apply Nat.eq_of_testBit_eq
  intro i
  simp only [Nat.testBit_and]
  cases st.shift_register.testBit i <;> cases m.testBit i <;> rfl

theorem clock_iter_acc (st : WaveformGenerator) (h : st.test = 0)
    (ha : st.accumulator < 0x1000000) :
    ∀ n : Nat,
      (clock^[n] st).accumulator = (st.accumulator + n * st.freq) % 0x1000000 ∧
      (clock^[n] st).test = 0 ∧ (clock^[n] st).freq = st.freq := by
  intro n
  induction n with
  | zero =>
    refine ⟨?_, by simpa using h, by simp⟩
    simpa using (Nat.mod_eq_of_lt ha).symm
  | succ n ih =>
    obtain ⟨h1, h2, h3⟩ := ih
    rw [Function.iterate_succ_apply']
    obtain ⟨g1, g2, g3, -⟩ := clock_run_fields _ h2
    refine ⟨?_, by rw [g2, h2], by rw [g3, h3]⟩
    rw [g1, h1, h3, and_mask24, Nat.mod_add_mod]
    congr 1
    ring

theorem shift_loop_keeps (d : Nat) : ∀ st : WaveformGenerator,
    (shift_loop st d).accumulator = st.accumulator ∧
    (shift_loop st d).pw = st.pw ∧
    (shift_loop st d).test = st.test ∧
    (shift_loop st d).freq = st.freq := by
  induction d using Nat.strong_induction_on with
  | _ d ih =>
    intro st
    unfold shift_loop
    by_cases h0 : d = 0
    · simp [h0]
    · rw [if_neg h0]
      by_cases h1 : d < 0x100000
      · rw [dif_pos h1]
        split
        · split <;> simp
        · split <;> simp
      · rw [dif_neg h1]
        obtain ⟨k1, k2, k3, k4⟩ := ih (d - 0x100000) (by omega) (clock_shift_register st)
        exact ⟨by rw [k1, csr_accumulator], by rw [k2, csr_pw],
               by rw [k3, csr_test], by rw [k4, csr_freq]⟩

theorem clock_delta_acc (st : WaveformGenerator) (n : Nat) (h : st.test = 0)
    (ha : st.accumulator < 0x1000000) :
    (clock_delta n st).accumulator = (st.accumulator + n * st.freq) % 0x1000000 := by
  have h' : (st.test ≠ 0) = False := by simp [h]
  simp only [clock_delta, h', if_false]
  rw [(shift_loop_keeps _ _).1]
  show (st.accumulator + n * st.freq % 0x100000000) &&& 0xffffff = _
  rw [and_mask24]
  omega

/-- C1: with the test bit clear, N single cycle clocks from a 24-bit
accumulator value leave the accumulator at (A + N*F) mod 2^24, and one delta
clock of size N from the same start gives that same accumulator value. -/
theorem accumulator_linearity (st : WaveformGenerator) (N : Nat)
    (h : st.test = 0) (ha : st.accumulator < 0x1000000) (hN : 1 ≤ N) :
    (clock^[N] st).accumulator = (st.accumulator + N * st.freq) % 0x1000000 ∧
    (clock_delta N st).accumulator = (st.accumulator + N * st.freq) % 0x1000000 ∧
    (clock^[N] st).accumulator = (clock_delta N st).accumulator := by
  obtain ⟨h1, -, -⟩ := clock_iter_acc st h ha N
  have h2 := clock_delta_acc st N h ha
  exact ⟨h1, h2, by rw [h1, h2]⟩

/-- Witness for accumulator_linearity at a concrete state. -/
theorem accumulator_linearity_witness :
    (clock^[2] baseGen).accumulator =
      (baseGen.accumulator + 2 * baseGen.freq) % 0x1000000 ∧
    (clock_delta 2 baseGen).accumulator =
      (baseGen.accumulator + 2 * baseGen.freq) % 0x1000000 ∧
    (clock^[2] baseGen).accumulator = (clock_delta 2 baseGen).accumulator :=
  accumulator_linearity baseGen 2 rfl (by decide) (by decide)

end SIDOsc

namespace SIDOsc

theorem sync_zero_helper (sys : Fin 3 → WaveformGenerator) (a : Fin 3)
    (h1 : (sys a).msb_rising = true)
    (h2 : (sys (sync_dest_idx a)).sync ≠ 0) :
    ((¬((sys a).sync ≠ 0 ∧ (sys (sync_source_idx a)).msb_rising = true)) →
      ((synchronize_at sys a) (sync_dest_idx a)).accumulator = 0) ∧
    (((sys a).sync ≠ 0 ∧ (sys (sync_source_idx a)).msb_rising = true) →
      ((synchronize_at sys a) (sync_dest_idx a)).accumulator =
        (sys (sync_dest_idx a)).accumulator) := by
  constructor
  · intro h3
    have hc : (sys a).msb_rising = true ∧ (sys (sync_dest_idx a)).sync ≠ 0 ∧
        ¬((sys a).sync ≠ 0 ∧ (sys (sync_source_idx a)).msb_rising = true) :=
      ⟨h1, h2, h3⟩
    unfold synchronize_at
    rw [if_pos hc, Function.update_same]
  · intro h3
    have hc : ¬((sys a).msb_rising = true ∧ (sys (sync_dest_idx a)).sync ≠ 0 ∧
        ¬((sys a).sync ≠ 0 ∧ (sys (sync_source_idx a)).msb_rising = true)) :=
      fun h => h.2.2 h3
    unfold synchronize_at
    rw [if_neg hc]

/-- C2: in the 3-voice ring, when the MSB of generator a rose this cycle and
the sync bit of its destination is on, the synchronize step of generator a sets
the destination accumulator to exactly 0, unless generator a is itself being
synced on the same cycle (its own sync bit on and the MSB of its own sync
source also rose), in which case the destination accumulator is unchanged. -/
theorem sync_propagation (sys : Fin 3 → WaveformGenerator) (a : Fin 3)
    (h1 : (sys a).msb_rising = true)
    (h2 : (sys (sync_dest_idx a)).sync ≠ 0) :
    ((¬((sys a).sync ≠ 0 ∧ (sys (sync_source_idx a)).msb_rising = true)) →
      ((synchronize_at sys a) (sync_dest_idx a)).accumulator = 0) ∧
    (((sys a).sync ≠ 0 ∧ (sys (sync_source_idx a)).msb_rising = true) →
      ((synchronize_at sys a) (sync_dest_idx a)).accumulator =
        (sys (sync_dest_idx a)).accumulator) :=
  sync_zero_helper sys a h1 h2

/-- Witness for sync_propagation: the plain case on syncSys and the suppressed
case on syncSupSys. -/
theorem sync_propagation_witness :
    ((synchronize_at syncSys 0) (sync_dest_idx 0)).accumulator = 0 ∧
    ((synchronize_at syncSupSys 0) (sync_dest_idx 0)).accumulator =
      (syncSupSys (sync_dest_idx 0)).accumulator :=
  ⟨(sync_propagation syncSys 0 (by decide) (by decide)).1 (by decide),
   (sync_propagation syncSupSys 0 (by decide) (by decide)).2 (by decide)⟩

/-- C10: with the test bit set, one single cycle clock leaves the accumulator,
msb_rising, shift_pipeline, freq, pw and waveform_output of the generator
unchanged; in the 3-voice system an msb_rising flag left true on a frozen
generator persists through the clock of all voices and, when the destination
sync bit is then on and no self-sync suppression applies, the synchronize step
of that generator still zeroes the destination accumulator. -/
theorem frozen_clock_frame (st : WaveformGenerator)
    (sys : Fin 3 → WaveformGenerator) (a : Fin 3)
    (h : st.test ≠ 0) (hts : (sys a).test ≠ 0) (hm : (sys a).msb_rising = true) :
    ((clock st).accumulator = st.accumulator ∧
     (clock st).msb_rising = st.msb_rising ∧
     (clock st).shift_pipeline = st.shift_pipeline ∧
     (clock st).freq = st.freq ∧
     (clock st).pw = st.pw ∧
     (clock st).waveform_output = st.waveform_output) ∧
    ((system_clock sys) a).msb_rising = true ∧
    (((system_clock sys) (sync_dest_idx a)).sync ≠ 0 →
      ¬(((system_clock sys) a).sync ≠ 0 ∧
        ((system_clock sys) (sync_source_idx a)).msb_rising = true) →
      ((synchronize_at (system_clock sys) a) (sync_dest_idx a)).accumulator = 0) := by
  obtain ⟨f1, f2, f3, f4, f5, f6, -⟩ := clock_frozen_fields st h
  have hp : ((system_clock sys) a).msb_rising = true := by
    show (clock (sys a)).msb_rising = true
    rw [(clock_frozen_fields (sys a) hts).2.1, hm]
  refine ⟨⟨f1, f2, f3, f4, f5, f6⟩, hp, ?_⟩
  intro hd hns
  exact (sync_zero_helper (system_clock sys) a hp hd).1 hns

end SIDOsc

namespace SIDOsc

/-- Witness for frozen_clock_frame on the concrete frozen system staleSys. -/
theorem frozen_clock_frame_witness :
    (clock frozenGen).accumulator = frozenGen.accumulator ∧
    ((synchronize_at (system_clock staleSys) 0) (sync_dest_idx 0)).accumulator = 0 :=
  ⟨(frozen_clock_frame frozenGen staleSys 0 (by decide) (by decide)
      (by decide)).1.1,
   (frozen_clock_frame frozenGen staleSys 0 (by decide) (by decide)
      (by decide)).2.2 (by decide) (by decide)⟩

theorem clock_test_any (st : WaveformGenerator) : (clock st).test = st.test := by
  by_cases h : st.test = 0
  · exact (clock_run_fields st h).2.1
  · exact (clock_frozen_fields st h).2.2.2.2.2.2.1

theorem swo_keeps (src_acc : Nat) (st : WaveformGenerator) :
    (set_waveform_output src_acc st).test = st.test ∧
    (set_waveform_output src_acc st).waveform = st.waveform ∧
    (set_waveform_output src_acc st).freq = st.freq ∧
    (set_waveform_output src_acc st).pw = st.pw ∧
    (set_waveform_output src_acc st).sync = st.sync ∧
    (set_waveform_output src_acc st).msb_rising = st.msb_rising ∧
    (set_waveform_output src_acc st).accumulator ≤ st.accumulator := by
  unfold set_waveform_output swo_body
  dsimp only
  repeat' split
  all_goals simp [Nat.and_le_left]

theorem synchronize_at_cases (sys : Fin 3 → WaveformGenerator) (a j : Fin 3) :
    (synchronize_at sys a) j = sys j ∨
    (synchronize_at sys a) j = { sys j with accumulator := 0 } := by
  unfold synchronize_at
  split
  · by_cases hj : j = sync_dest_idx a
    · subst hj
      right
      rw [Function.update_same]
    · left
      rw [Function.update_noteq hj]
  · left
    rfl

theorem set_output_at_cases (sys : Fin 3 → WaveformGenerator) (k j : Fin 3) :
    (set_output_at sys k) j = sys j ∨
    ∃ src, (set_output_at sys k) j = set_waveform_output src (sys j) := by
  unfold set_output_at
  by_cases hj : j = k
  · subst hj
    right
    exact ⟨_, by rw [Function.update_same]⟩
  · left
    rw [Function.update_noteq hj]

theorem sync_seq_keeps (sys : Fin 3 → WaveformGenerator) (i : Fin 3) :
    ((system_synchronize sys) i).test = (sys i).test ∧
    ((system_synchronize sys) i).accumulator ≤ (sys i).accumulator := by
  unfold system_synchronize
  rcases synchronize_at_cases sys 0 i with h0 | h0 <;>
    rcases synchronize_at_cases (synchronize_at sys 0) 1 i with h1 | h1 <;>
    rcases synchronize_at_cases (synchronize_at (synchronize_at sys 0) 1) 2 i
      with h2 | h2 <;>
    simp [h2, h1, h0]

theorem set_output_seq_keeps (sys : Fin 3 → WaveformGenerator) (i : Fin 3) :
    ((system_set_output sys) i).test = (sys i).test ∧
    ((system_set_output sys) i).accumulator ≤ (sys i).accumulator := by
  unfold system_set_output
  have step : ∀ (s : Fin 3 → WaveformGenerator) (k : Fin 3),
      ((set_output_at s k) i).test = (s i).test ∧
      ((set_output_at s k) i).accumulator ≤ (s i).accumulator := by
    intro s k
    rcases set_output_at_cases s k i with h | ⟨src, h⟩
    · rw [h]
      exact ⟨rfl, le_refl _⟩
    · rw [h]
      exact ⟨(swo_keeps src (s i)).1, (swo_keeps src (s i)).2.2.2.2.2.2⟩
  obtain ⟨a1, a2⟩ := step sys 0
  obtain ⟨b1, b2⟩ := step (set_output_at sys 0) 1
  obtain ⟨c1, c2⟩ := step (set_output_at (set_output_at sys 0) 1) 2
  exact ⟨by rw [c1, b1, a1], le_trans c2 (le_trans b2 a2)⟩

theorem cycle_frozen_step (sys : Fin 3 → WaveformGenerator) (i : Fin 3)
    (ht : (sys i).test ≠ 0) (ha : (sys i).accumulator = 0) :
    ((sample_cycle sys) i).test ≠ 0 ∧ ((sample_cycle sys) i).accumulator = 0 := by
  have s1t : ((system_clock sys) i).test = (sys i).test := clock_test_any (sys i)
  have s1a : ((system_clock sys) i).accumulator = 0 := by
    show (clock (sys i)).accumulator = 0
    rw [(clock_frozen_fields (sys i) ht).1, ha]
  obtain ⟨s2t, s2a⟩ := sync_seq_keeps (system_clock sys) i
  obtain ⟨s3t, s3a⟩ := set_output_seq_keeps (system_synchronize (system_clock sys)) i
  constructor
  · show ((system_set_output (system_synchronize (system_clock sys))) i).test ≠ 0
    rw [s3t, s2t, s1t]
    exact ht
  · show ((system_set_output (system_synchronize (system_clock sys))) i).accumulator = 0
    have : ((system_synchronize (system_clock sys)) i).accumulator = 0 := by
      omega
    omega

/-- C3 counterexample: voice 0 of frozenSys has the test bit set, accumulator
0, pulse_output 0xfff and pulse width 1; after one per-sample cycle its
pulse_output is 0, not 0xfff, because the trailing comparator push of
set_waveform_output runs regardless of the test bit. -/
theorem test_freeze_counterexample :
    (frozenSys 0).test ≠ 0 ∧ (frozenSys 0).pulse_output = 0xfff ∧
    ((sample_cycle frozenSys) 0).pulse_output = 0 := by
  refine ⟨by decide, by decide, ?_⟩
  decide

/-- C3 amended: with the test bit set on voice i and its accumulator at the
value 0 that setting TEST forces, any number of per-sample cycles leaves that
accumulator at 0, and pulse_output equals 0xfff at the post-clock point of
every cycle, which is the value consumed by the output computation; the
trailing comparator push of set_waveform_output may lower the stored
pulse_output until the next clock rewrites it. -/
theorem test_freeze_amended (sys : Fin 3 → WaveformGenerator) (i : Fin 3)
    (n : Nat) (ht : (sys i).test ≠ 0) (ha : (sys i).accumulator = 0) :
    ((sample_cycle^[n] sys) i).test ≠ 0 ∧
    ((sample_cycle^[n] sys) i).accumulator = 0 ∧
    ((system_clock (sample_cycle^[n] sys)) i).pulse_output = 0xfff := by
  have main : ∀ m : Nat, ((sample_cycle^[m] sys) i).test ≠ 0 ∧
      ((sample_cycle^[m] sys) i).accumulator = 0 := by
    intro m
    induction m with
    | zero => exact ⟨ht, ha⟩
    | succ m ih =>
      rw [Function.iterate_succ_apply']
      exact cycle_frozen_step _ i ih.1 ih.2
  obtain ⟨h1, h2⟩ := main n
  refine ⟨h1, h2, ?_⟩
  show (clock ((sample_cycle^[n] sys) i)).pulse_output = 0xfff
  exact (clock_frozen_fields _ h1).2.2.2.2.2.2.2.2.2.2.2

/-- Witness for test_freeze_amended on the concrete frozen system. -/
theorem test_freeze_amended_witness :
    ((sample_cycle^[2] frozenSys) 0).accumulator = 0 ∧
    ((system_clock (sample_cycle^[2] frozenSys)) 0).pulse_output = 0xfff :=
  ⟨(test_freeze_amended frozenSys 0 2 (by decide) (by decide)).2.1,
   (test_freeze_amended frozenSys 0 2 (by decide) (by decide)).2.2⟩

end SIDOsc

namespace SIDOsc

theorem low12_absorb (x p : Nat) (hx : x < 0x1000) :
    x &&& (0xfff ||| p) &&& 0xfff = x := by
  apply Nat.eq_of_testBit_eq
  intro i
  have h12 : (0xfff : Nat) = 2 ^ 12 - 1 := by norm_num
  simp only [Nat.testBit_and, Nat.testBit_or, h12, Nat.testBit_two_pow_sub_one]
  by_cases hi : i < 12
  · simp [hi]
  · have hb : x.testBit i = false := by
      apply Nat.testBit_lt_two_pow
      calc x < 0x1000 := hx
        _ ≤ 2 ^ i := by
          have h2 : (0x1000 : Nat) = 2 ^ 12 := by norm_num
          rw [h2]
          exact Nat.pow_le_pow_right (by omega) (by omega)
    simp [hi, hb]

/-- C4: in the sawtooth-only control state, set_waveform_output computes the
pre-DAC digital output as the upper 12 bits of the accumulator, for every
24-bit accumulator value and every sync source accumulator. -/
theorem pure_sawtooth (st : WaveformGenerator) (src_acc : Nat)
    (hc : sawtooth_only_control st) (ha : st.accumulator < 0x1000000) :
    (set_waveform_output src_acc st).waveform_output = st.accumulator >>> 12 := by
  obtain ⟨hw, hwave, hnp, hnn, hrm⟩ := hc
  have hx : st.accumulator >>> 12 < 0x1000 := by
    have h1 : st.accumulator >>> 12 = st.accumulator / 2 ^ 12 :=
      Nat.shiftRight_eq_div_pow _ _
    have h2 : (2 : Nat) ^ 12 = 4096 := by norm_num
    rw [h1, h2]
    omega
  unfold set_waveform_output swo_body
  dsimp only
  rw [hw, hwave, hnp, hnn, hrm]
  simp only [eq_true (show (2 : Nat) ≠ 0 by decide),
    eq_false (show ¬((2 : Nat) &&& 0xc = 0xc) by decide),
    eq_false (show ¬((2 : Nat) &&& 0xd ≠ 0) by decide),
    eq_false (show ¬((2 : Nat) > 0x8) by decide),
    if_true, if_false, false_and, and_false, Nat.and_zero, Nat.xor_zero,
    saw_wave]
  split
  · exact low12_absorb _ _ hx
  · exact low12_absorb _ _ hx

/-- Witness for pure_sawtooth at a concrete sawtooth state. -/
theorem pure_sawtooth_witness :
    (set_waveform_output 0 sawGen).waveform_output = sawGen.accumulator >>> 12 :=
  pure_sawtooth sawGen 0 ⟨rfl, rfl, rfl, rfl, rfl⟩ (by decide)

end SIDOsc

namespace SIDOsc

theorem swo_float_dec (src : Nat) (st : WaveformGenerator) (hw : st.waveform = 0)
    (ht : st.floating_output_ttl ≠ 0) (ht1 : st.floating_output_ttl - 1 ≠ 0) :
    (set_waveform_output src st).waveform = 0 ∧
    (set_waveform_output src st).floating_output_ttl = st.floating_output_ttl - 1 ∧
    (set_waveform_output src st).waveform_output = st.waveform_output ∧
    (set_waveform_output src st).osc3 = st.osc3 := by
  unfold set_waveform_output swo_body
  dsimp only
  rw [hw]
  simp [ht, ht1]

theorem swo_float_zero (src : Nat) (st : WaveformGenerator) (hw : st.waveform = 0)
    (ht : st.floating_output_ttl ≠ 0) (ht1 : st.floating_output_ttl - 1 = 0) :
    (set_waveform_output src st).waveform = 0 ∧
    (set_waveform_output src st).floating_output_ttl = 0 ∧
    (set_waveform_output src st).waveform_output = 0 ∧
    (set_waveform_output src st).osc3 = 0 := by
  unfold set_waveform_output swo_body
  dsimp only
  rw [hw]
  simp [ht, ht1]

theorem swo_float_idle (src : Nat) (st : WaveformGenerator) (hw : st.waveform = 0)
    (ht : st.floating_output_ttl = 0) :
    (set_waveform_output src st).waveform = 0 ∧
    (set_waveform_output src st).floating_output_ttl = 0 ∧
    (set_waveform_output src st).waveform_output = st.waveform_output ∧
    (set_waveform_output src st).osc3 = st.osc3 := by
  unfold set_waveform_output swo_body
  dsimp only
  rw [hw]
  simp [ht, hw]

theorem float_iter (src : Nat) (st : WaveformGenerator) (T : Nat)
    (hw : st.waveform = 0) (hT : 1 ≤ T)
    (httl : st.floating_output_ttl = (T : Int)) :
    (∀ k, k < T →
      ((set_waveform_output src)^[k] st).waveform = 0 ∧
      ((set_waveform_output src)^[k] st).floating_output_ttl = ((T - k : Nat) : Int) ∧
      ((set_waveform_output src)^[k] st).waveform_output = st.waveform_output ∧
      ((set_waveform_output src)^[k] st).osc3 = st.osc3) ∧
    (∀ k, T ≤ k →
      ((set_waveform_output src)^[k] st).waveform = 0 ∧
      ((set_waveform_output src)^[k] st).floating_output_ttl = 0 ∧
      ((set_waveform_output src)^[k] st).waveform_output = 0 ∧
      ((set_waveform_output src)^[k] st).osc3 = 0) := by
  have part1 : ∀ k, k < T →
      ((set_waveform_output src)^[k] st).waveform = 0 ∧
      ((set_waveform_output src)^[k] st).floating_output_ttl = ((T - k : Nat) : Int) ∧
      ((set_waveform_output src)^[k] st).waveform_output = st.waveform_output ∧
      ((set_waveform_output src)^[k] st).osc3 = st.osc3 := by
    intro k
    induction k with
    | zero =>
      intro _
      exact ⟨hw, by simpa using httl, rfl, rfl⟩
    | succ k ih =>
      intro hk
      obtain ⟨w0, t0, o0, s0⟩ := ih (by omega)
      rw [Function.iterate_succ_apply']
      have htk : ((T - k : Nat) : Int) ≠ 0 := by
        have : 1 ≤ T - k := by omega
        omega
      have htk1 : ((T - k : Nat) : Int) - 1 ≠ 0 := by
        have : 2 ≤ T - k := by omega
        omega
      obtain ⟨a, b, c, d⟩ := swo_float_dec src _ w0 (by rw [t0]; exact htk)
        (by rw [t0]; exact htk1)
      refine ⟨a, ?_, by rw [c, o0], by rw [d, s0]⟩
      rw [b, t0]
      have : (T - (k + 1) : Nat) = (T - k) - 1 := by omega
      rw [this]
      have h1 : 1 ≤ T - k := by omega
      omega
  have base : ((set_waveform_output src)^[T] st).waveform = 0 ∧
      ((set_waveform_output src)^[T] st).floating_output_ttl = 0 ∧
      ((set_waveform_output src)^[T] st).waveform_output = 0 ∧
      ((set_waveform_output src)^[T] st).osc3 = 0 := by
    obtain ⟨w0, t0, o0, s0⟩ := part1 (T - 1) (by omega)
    have hstep : (set_waveform_output src)^[T] st =
        set_waveform_output src ((set_waveform_output src)^[T - 1] st) := by
      have hTT : T = (T - 1) + 1 := by omega
      nth_rewrite 1 [hTT]
      rw [Function.iterate_succ_apply']
    rw [hstep]
    have hone : (T - (T - 1) : Nat) = 1 := by omega
    rw [hone] at t0
    obtain ⟨a, b, c, d⟩ := swo_float_zero src _ w0 (by rw [t0]; decide)
      (by rw [t0]; decide)
    exact ⟨a, b, c, d⟩
  have part2 : ∀ j,
      ((set_waveform_output src)^[T + j] st).waveform = 0 ∧
      ((set_waveform_output src)^[T + j] st).floating_output_ttl = 0 ∧
      ((set_waveform_output src)^[T + j] st).waveform_output = 0 ∧
      ((set_waveform_output src)^[T + j] st).osc3 = 0 := by
    intro j
    induction j with
    | zero => simpa using base
    | succ j ih =>
      obtain ⟨w0, t0, o0, s0⟩ := ih
      have : T + (j + 1) = (T + j) + 1 := by omega
      rw [this, Function.iterate_succ_apply']
      obtain ⟨a, b, c, d⟩ := swo_float_idle src _ w0 t0
      exact ⟨a, b, by rw [c, o0], by rw [d, s0]⟩
  refine ⟨part1, ?_⟩
  intro k hk
  have : k = T + (k - T) := by omega
  rw [this]
  exact part2 (k - T)

/-- C7: with no waveform selected, floating_output_ttl = T with T at least 1,
and a nonzero current output, the output (waveform_output and osc3) is
unchanged and nonzero for the first T - 1 set_waveform_output calls, becomes
exactly 0 at call T and stays 0 afterwards, and waveform_output is
monotonically non-increasing over the whole decay. -/
theorem floating_decay (st : WaveformGenerator) (src : Nat) (T : Nat)
    (hw : st.waveform = 0) (hT : 1 ≤ T)
    (httl : st.floating_output_ttl = (T : Int)) (hnz : st.waveform_output ≠ 0) :
    (∀ k, k < T →
      ((set_waveform_output src)^[k] st).waveform_output = st.waveform_output ∧
      ((set_waveform_output src)^[k] st).osc3 = st.osc3 ∧
      ((set_waveform_output src)^[k] st).waveform_output ≠ 0) ∧
    (∀ k, T ≤ k →
      ((set_waveform_output src)^[k] st).waveform_output = 0 ∧
      ((set_waveform_output src)^[k] st).osc3 = 0) ∧
    (∀ j k, j ≤ k →
      ((set_waveform_output src)^[k] st).waveform_output ≤
      ((set_waveform_output src)^[j] st).waveform_output) := by
  obtain ⟨p1, p2⟩ := float_iter src st T hw hT httl
  refine ⟨?_, ?_, ?_⟩
  · intro k hk
    obtain ⟨-, -, c, d⟩ := p1 k hk
    exact ⟨c, d, by rw [c]; exact hnz⟩
  · intro k hk
    obtain ⟨-, -, c, d⟩ := p2 k hk
    exact ⟨c, d⟩
  · intro j k hjk
    by_cases hj : j < T
    · obtain ⟨-, -, cj, -⟩ := p1 j hj
      by_cases hkk : k < T
      · obtain ⟨-, -, ck, -⟩ := p1 k hkk
        rw [cj, ck]
      · obtain ⟨-, -, ck, -⟩ := p2 k (by omega)
        rw [cj, ck]
        exact Nat.zero_le _
    · obtain ⟨-, -, ck, -⟩ := p2 k (by omega)
      rw [ck]
      exact Nat.zero_le _

/-- Witness for floating_decay on the concrete floating state floatGen. -/
theorem floating_decay_witness :
    ((set_waveform_output 0)^[2] floatGen).waveform_output =
      floatGen.waveform_output ∧
    ((set_waveform_output 0)^[3] floatGen).waveform_output = 0 ∧
    ((set_waveform_output 0)^[3] floatGen).osc3 = 0 :=
  ⟨((floating_decay floatGen 0 3 rfl (by decide) rfl (by decide)).1 2
      (by decide)).1,
   ((floating_decay floatGen 0 3 rfl (by decide) rfl (by decide)).2.1 3
      (by decide)).1,
   ((floating_decay floatGen 0 3 rfl (by decide) rfl (by decide)).2.1 3
      (by decide)).2⟩

end SIDOsc

namespace SIDOsc

theorem swo_pulse (src : Nat) (st : WaveformGenerator) :
    (set_waveform_output src st).pulse_output =
      if (set_waveform_output src st).accumulator >>> 12 ≥ st.pw then 0xfff
      else 0 := by
  have hpw : (swo_body src st).pw = st.pw := (swo_keeps src st).2.2.2.1
  show negWrap32 (if (swo_body src st).accumulator >>> 12 ≥
      (swo_body src st).pw then 1 else 0) &&& 0xfff = _
  rw [hpw, negWrap_mask]
  rfl

/-- C8 counterexample: on the frozen state frozenGen the comparator push of
set_waveform_output stores 0 (the accumulator upper bits are 0, below the
pulse width 1), but the next clock overwrites the pulse level with 0xfff
before any output computation consumes it, so the comparator result is not
visible one cycle after the comparison when the test bit is set. -/
theorem pulse_delay_counterexample :
    (set_waveform_output 0 frozenGen).pulse_output = 0 ∧
    (clock (set_waveform_output 0 frozenGen)).pulse_output = 0xfff := by
  constructor
  · decide
  · decide

/-- C8 amended: every set_waveform_output call recomputes the pulse comparator
regardless of the waveform selector, as 0xfff when the upper 12 bits of the
end-of-cycle accumulator reach the pulse width register and 0 otherwise; when
the test bit is clear this stored result is exactly the pulse level found by
the output computation one cycle later, while with test set the next clock
forces the pulse level high, discarding the pending comparator result. -/
theorem pulse_comparator_amended (st : WaveformGenerator) (src : Nat) :
    ((set_waveform_output src st).pulse_output =
      if (set_waveform_output src st).accumulator >>> 12 ≥ st.pw then 0xfff
      else 0) ∧
    (st.test = 0 →
      (clock (set_waveform_output src st)).pulse_output =
        (set_waveform_output src st).pulse_output) := by
  refine ⟨swo_pulse src st, ?_⟩
  intro h
  have hts : (set_waveform_output src st).test = 0 := by
    rw [(swo_keeps src st).1, h]
  exact (clock_run_fields _ hts).2.2.2.2.2.2.1

/-- Witness for pulse_comparator_amended at a concrete unfrozen state. -/
theorem pulse_comparator_amended_witness :
    (clock (set_waveform_output 0 baseGen)).pulse_output =
      (set_waveform_output 0 baseGen).pulse_output :=
  (pulse_comparator_amended baseGen 0).2 rfl

end SIDOsc

namespace SIDOsc

theorem one_testBit (i : Nat) : (1 : Nat).testBit i = decide (0 = i) := by
  have h : (1 : Nat) = 2 ^ 0 := by norm_num
  rw [h, Nat.testBit_two_pow]

theorem mask23_testBit (i : Nat) : (0x7fffff : Nat).testBit i = decide (i < 23) := by
  have h : (0x7fffff : Nat) = 2 ^ 23 - 1 := by norm_num
  rw [h, Nat.testBit_two_pow_sub_one]

theorem tap_right (x k s i : Nat) :
    ((x &&& 2 ^ k) >>> s).testBit i = (x.testBit k && decide (k = s + i)) := by
  simp only [Nat.testBit_shiftRight, Nat.testBit_and, Nat.testBit_two_pow]
  by_cases h : k = s + i
  · subst h
    simp
  · simp [h]

theorem tap_left (x k s i : Nat) :
    ((x &&& 2 ^ k) <<< s).testBit i = (x.testBit k && decide (k + s = i)) := by
  simp only [Nat.testBit_shiftLeft, Nat.testBit_and, Nat.testBit_two_pow]
  by_cases hs : s ≤ i
  · by_cases h : k = i - s
    · subst h
      have he : (i - s) + s = i := by omega
      simp [hs, he]
    · have hne : ¬((k + s) = i) := by omega
      simp [hs, h, hne]
  · have hne : ¬((k + s) = i) := by omega
    have hge : ¬(i ≥ s) := by omega
    simp [hge, hne]

/-- C6: one LFSR shift step computes new bit 0 as the XOR of bits 22 and 17 of
the old register, shifts the register left by one masked to 23 bits, and packs
taps 20, 18, 14, 11, 9, 5, 2, 0 of the new register into noise output bits 11
down to 4, with output bits 3 to 0 and every bit from 12 up equal to zero. -/
theorem lfsr_step_spec (st : WaveformGenerator) :
    ((clock_shift_register st).shift_register.testBit 0 =
      ((st.shift_register.testBit 22).xor (st.shift_register.testBit 17))) ∧
    (∀ i, i ≤ 21 → (clock_shift_register st).shift_register.testBit (i + 1) =
      st.shift_register.testBit i) ∧
    (∀ i, 23 ≤ i → (clock_shift_register st).shift_register.testBit i = false) ∧
    ((clock_shift_register st).noise_output.testBit 11 =
       (clock_shift_register st).shift_register.testBit 20 ∧
     (clock_shift_register st).noise_output.testBit 10 =
       (clock_shift_register st).shift_register.testBit 18 ∧
     (clock_shift_register st).noise_output.testBit 9 =
       (clock_shift_register st).shift_register.testBit 14 ∧
     (clock_shift_register st).noise_output.testBit 8 =
       (clock_shift_register st).shift_register.testBit 11 ∧
     (clock_shift_register st).noise_output.testBit 7 =
       (clock_shift_register st).shift_register.testBit 9 ∧
     (clock_shift_register st).noise_output.testBit 6 =
       (clock_shift_register st).shift_register.testBit 5 ∧
     (clock_shift_register st).noise_output.testBit 5 =
       (clock_shift_register st).shift_register.testBit 2 ∧
     (clock_shift_register st).noise_output.testBit 4 =
       (clock_shift_register st).shift_register.testBit 0) ∧
    (∀ i, i ≤ 3 → (clock_shift_register st).noise_output.testBit i = false) ∧
    (∀ i, 12 ≤ i → (clock_shift_register st).noise_output.testBit i = false) := by
  have hsr : (clock_shift_register st).shift_register =
      ((st.shift_register <<< 1) |||
        (((st.shift_register >>> 22) ^^^ (st.shift_register >>> 17)) &&& 0x1)) &&&
        0x7fffff := csr_sr st
  have hno0 : (clock_shift_register st).noise_output =
      (((clock_shift_register st).shift_register &&& 0x100000) >>> 9) |||
      (((clock_shift_register st).shift_register &&& 0x040000) >>> 8) |||
      (((clock_shift_register st).shift_register &&& 0x004000) >>> 5) |||
      (((clock_shift_register st).shift_register &&& 0x000800) >>> 3) |||
      (((clock_shift_register st).shift_register &&& 0x000200) >>> 2) |||
      (((clock_shift_register st).shift_register &&& 0x000020) <<< 1) |||
      (((clock_shift_register st).shift_register &&& 0x000004) <<< 3) |||
      (((clock_shift_register st).shift_register &&& 0x000001) <<< 4) := rfl
  have hno : (clock_shift_register st).noise_output =
      (((clock_shift_register st).shift_register &&& 2 ^ 20) >>> 9) |||
      (((clock_shift_register st).shift_register &&& 2 ^ 18) >>> 8) |||
      (((clock_shift_register st).shift_register &&& 2 ^ 14) >>> 5) |||
      (((clock_shift_register st).shift_register &&& 2 ^ 11) >>> 3) |||
      (((clock_shift_register st).shift_register &&& 2 ^ 9) >>> 2) |||
      (((clock_shift_register st).shift_register &&& 2 ^ 5) <<< 1) |||
      (((clock_shift_register st).shift_register &&& 2 ^ 2) <<< 3) |||
      (((clock_shift_register st).shift_register &&& 2 ^ 0) <<< 4) := by
    rw [hno0]
    norm_num
  refine ⟨?_, ?_, ?_, ?_, ?_, ?_⟩
  · rw [hsr]
    simp only [Nat.testBit_and, Nat.testBit_or, Nat.testBit_shiftLeft,
      Nat.testBit_shiftRight, Nat.testBit_xor, one_testBit, mask23_testBit]
    norm_num
  · intro i hi
    rw [hsr]
    simp only [Nat.testBit_and, Nat.testBit_or, Nat.testBit_shiftLeft,
      Nat.testBit_shiftRight, Nat.testBit_xor, one_testBit, mask23_testBit]
    have e1 : (0 = i + 1) = False := eq_false (by omega)
    have e2 : (i + 1 < 23) = True := eq_true (by omega)
    have e3 : (i + 1 ≥ 1) = True := eq_true (by omega)
    simp only [e1, e2, e3, decide_True, decide_False, Bool.and_false,
      Bool.false_or, Bool.or_false, Bool.and_true, Bool.true_and,
      Nat.add_sub_cancel]
  · intro i hi
    rw [hsr]
    simp only [Nat.testBit_and, mask23_testBit,
      eq_false (show ¬(i < 23) by omega), decide_False, Bool.and_false]
  · rw [hno]
    simp only [Nat.testBit_or, tap_right, tap_left]
    simp
  · intro i hi
    rw [hno]
    simp only [Nat.testBit_or, tap_right, tap_left,
      eq_false (show ¬(20 = 9 + i) by omega),
      eq_false (show ¬(18 = 8 + i) by omega),
      eq_false (show ¬(14 = 5 + i) by omega),
      eq_false (show ¬(11 = 3 + i) by omega),
      eq_false (show ¬(9 = 2 + i) by omega),
      eq_false (show ¬(5 + 1 = i) by omega),
      eq_false (show ¬(2 + 3 = i) by omega),
      eq_false (show ¬(0 + 4 = i) by omega)]
    simp
  · intro i hi
    rw [hno]
    simp only [Nat.testBit_or, tap_right, tap_left,
      eq_false (show ¬(20 = 9 + i) by omega),
      eq_false (show ¬(18 = 8 + i) by omega),
      eq_false (show ¬(14 = 5 + i) by omega),
      eq_false (show ¬(11 = 3 + i) by omega),
      eq_false (show ¬(9 = 2 + i) by omega),
      eq_false (show ¬(5 + 1 = i) by omega),
      eq_false (show ¬(2 + 3 = i) by omega),
      eq_false (show ¬(0 + 4 = i) by omega)]
    simp

/-- Witness for lfsr_step_spec at a concrete state and concrete bit indices. -/
theorem lfsr_step_spec_witness :
    (clock_shift_register baseGen).shift_register.testBit 1 =
      baseGen.shift_register.testBit 0 ∧
    (clock_shift_register baseGen).shift_register.testBit 24 = false ∧
    (clock_shift_register baseGen).noise_output.testBit 0 = false ∧
    (clock_shift_register baseGen).noise_output.testBit 12 = false :=
  ⟨(lfsr_step_spec baseGen).2.1 0 (by decide),
   (lfsr_step_spec baseGen).2.2.1 24 (by decide),
   (lfsr_step_spec baseGen).2.2.2.2.1 0 (by decide),
   (lfsr_step_spec baseGen).2.2.2.2.2 12 (by decide)⟩

end SIDOsc

namespace SIDOsc

theorem csr_sr_lt (st : WaveformGenerator) :
    (clock_shift_register st).shift_register < 0x800000 := by
  rw [csr_sr]
  exact lt_of_le_of_lt Nat.and_le_right (by norm_num)

theorem wsr_sr_le (st : WaveformGenerator) :
    (write_shift_register st).shift_register ≤ st.shift_register := by
  obtain ⟨m, hm⟩ := wsr_sr_eq_and st
  rw [hm]
  exact Nat.and_le_left

theorem clock_acc_cases (st : WaveformGenerator) :
    (clock st).accumulator = st.accumulator ∨
    (clock st).accumulator = (st.accumulator + st.freq) &&& 0xffffff := by
  by_cases ht : st.test = 0
  · right
    exact (clock_run_fields st ht).1
  · left
    exact (clock_frozen_fields st ht).1

theorem clock_sr_cases (st : WaveformGenerator) :
    (clock st).shift_register = st.shift_register ∨
    (clock st).shift_register < 0x800000 := by
  unfold clock
  by_cases ht : st.test ≠ 0
  · simp only [eq_true ht, if_true]
    by_cases h1 : st.shift_register_reset ≠ 0
    · simp only [eq_true h1, if_true]
      by_cases h2 : st.shift_register_reset - 1 = 0
      · right
        simp only [h2]
        simp [h2]
      · left
        simp [h2]
    · simp only [eq_false h1, if_false]
      left
      simp
  · simp only [eq_false ht, if_false]
    by_cases hb : compl32 st.accumulator &&&
        ((st.accumulator + st.freq) &&& 0xffffff) &&& 0x080000 ≠ 0
    · simp only [eq_true hb, if_true]
      left
      simp
    · simp only [eq_false hb, if_false]
      by_cases h2 : st.shift_pipeline ≠ 0
      · simp only [eq_true h2, if_true]
        by_cases h3 : st.shift_pipeline - 1 = 0
        · right
          simp only [h3]
          simp [h3]
          exact lt_of_le_of_lt Nat.and_le_right (by norm_num)
        · left
          simp [h3]
      · simp only [eq_false h2, if_false]
        left
        simp

theorem clock_inv (st : WaveformGenerator) (h : reg_inv st) : reg_inv (clock st) := by
  obtain ⟨ha, hs⟩ := h
  constructor
  · rcases clock_acc_cases st with h1 | h1 <;> rw [h1]
    · exact ha
    · exact lt_of_le_of_lt Nat.and_le_right (by norm_num)
  · rcases clock_sr_cases st with h1 | h1
    · rw [h1]
      exact hs
    · exact h1

theorem shift_loop_sr (d : Nat) : ∀ st : WaveformGenerator,
    st.shift_register < 0x800000 → (shift_loop st d).shift_register < 0x800000 := by
  induction d using Nat.strong_induction_on with
  | _ d ih =>
    intro st hsr
    unfold shift_loop
    by_cases h0 : d = 0
    · rw [if_pos h0]
      exact hsr
    · rw [if_neg h0]
      by_cases h1 : d < 0x100000
      · rw [dif_pos h1]
        split
        · split
          · exact hsr
          · exact csr_sr_lt st
        · split
          · exact hsr
          · exact csr_sr_lt st
      · rw [dif_neg h1]
        exact ih (d - 0x100000) (by omega) _ (csr_sr_lt st)

theorem clock_delta_inv (n : Nat) (st : WaveformGenerator) (h : reg_inv st) :
    reg_inv (clock_delta n st) := by
  obtain ⟨ha, hs⟩ := h
  unfold clock_delta
  by_cases ht : st.test ≠ 0
  · simp only [eq_true ht, if_true]
    by_cases h1 : st.shift_register_reset ≠ 0
    · simp only [eq_true h1, if_true]
      dsimp only
      by_cases h2 : st.shift_register_reset - (n : Int) ≤ 0
      · simp only [eq_true h2, if_true]
        exact ⟨by simpa using ha, by simp⟩
      · simp only [eq_false h2, if_false]
        exact ⟨by simpa using ha, by simpa using hs⟩
    · simp only [eq_false h1, if_false]
      exact ⟨by simpa using ha, by simpa using hs⟩
  · simp only [eq_false ht, if_false]
    constructor
    · show (shift_loop _ _).accumulator < 0x1000000
      rw [(shift_loop_keeps _ _).1]
      exact lt_of_le_of_lt Nat.and_le_right (by norm_num)
    · show (shift_loop _ _).shift_register < 0x800000
      exact shift_loop_sr _ _ (by simpa using hs)

theorem swo_sr_le (src : Nat) (st : WaveformGenerator) :
    (set_waveform_output src st).shift_register ≤ st.shift_register := by
  show (swo_body src st).shift_register ≤ st.shift_register
  unfold swo_body
  dsimp only
  repeat' split
  all_goals simp [wsr_sr_le, Nat.and_le_left]

theorem swo_delta_bounds (n src : Nat) (st : WaveformGenerator) :
    (set_waveform_output_delta n src st).accumulator ≤ st.accumulator ∧
    (set_waveform_output_delta n src st).shift_register ≤ st.shift_register := by
  unfold set_waveform_output_delta
  dsimp only
  repeat' split
  all_goals simp [wsr_sr_le, Nat.and_le_left]

/-- C9: the width invariant (accumulator below 2^24, shift register below
2^23) is preserved by every operation: single cycle clock, delta clock, the
waveform output calculations of both clocking paths, the LFSR shift, the
combined-waveform write back, the shift register reset, and the synchronize
step of any generator of the 3-voice system. -/
theorem register_width_invariant (st : WaveformGenerator)
    (sys : Fin 3 → WaveformGenerator) (a : Fin 3) (n src : Nat)
    (h : reg_inv st) (hs : ∀ j, reg_inv (sys j)) :
    reg_inv (clock st) ∧ reg_inv (clock_delta n st) ∧
    reg_inv (set_waveform_output src st) ∧
    reg_inv (set_waveform_output_delta n src st) ∧
    reg_inv (clock_shift_register st) ∧
    reg_inv (write_shift_register st) ∧
    reg_inv (reset_shift_register st) ∧
    (∀ j, reg_inv ((synchronize_at sys a) j)) := by
  obtain ⟨ha, hsr⟩ := h
  refine ⟨clock_inv st ⟨ha, hsr⟩, clock_delta_inv n st ⟨ha, hsr⟩, ?_, ?_, ?_, ?_, ?_, ?_⟩
  · exact ⟨lt_of_le_of_lt (swo_keeps src st).2.2.2.2.2.2 ha,
           lt_of_le_of_lt (swo_sr_le src st) hsr⟩
  · exact ⟨lt_of_le_of_lt (swo_delta_bounds n src st).1 ha,
           lt_of_le_of_lt (swo_delta_bounds n src st).2 hsr⟩
  · exact ⟨by simpa using ha, csr_sr_lt st⟩
  · exact ⟨by simpa using ha, lt_of_le_of_lt (wsr_sr_le st) hsr⟩
  · exact ⟨by simpa using ha, by simp⟩
  · intro j
    rcases synchronize_at_cases sys a j with hc | hc <;> rw [hc]
    · exact hs j
    · exact ⟨by norm_num, (hs j).2⟩

/-- Witness for register_width_invariant at the concrete state baseGen and the
concrete system frozenSys. -/
theorem register_width_invariant_witness :
    reg_inv (clock baseGen) ∧ reg_inv (clock_shift_register baseGen) :=
  ⟨(register_width_invariant baseGen frozenSys 0 2 0 (by constructor <;> decide)
      (fun j => by fin_cases j <;> constructor <;> decide)).1,
   (register_width_invariant baseGen frozenSys 0 2 0 (by constructor <;> decide)
      (fun j => by fin_cases j <;> constructor <;> decide)).2.2.2.2.1⟩

end SIDOsc
